import Mathlib

/-!
Verification of the pdf2text extraction server (`src/server.js`).

The server exposes three GET routes:
  * `/api/pdf-text`     — ranged extraction, query `pdfUrl`, `min`, `max`;
  * `/api/pdf-text-all` — whole-document extraction, query `pdfUrl`;
  * `/api/health`       — health check.

The embedding below models a parsed document as a list of pages, each page
being the list of its text fragments (the `item.str` values) in structural
order.  Network fetch and PDF parsing are I/O: a handler is modelled as a
pure function of the request's query and of the fetch outcome, where the
fetch outcome is `Except String (Except String Doc)` — the outer layer is
the HTTP fetch (error message on failure), the inner layer is the PDF
parse of the fetched bytes (error message on failure).
-/

namespace PdfServer

/-- A parsed document: pages in order, each page its text fragments in
structural order.  Page numbers are 1-based positions in this list. -/
abbrev Doc := List (List String)

/-- The query string of a request as the handlers read it:
`req.query.pdfUrl`, `req.query.min`, `req.query.max`; `none` models an
absent parameter (JS `undefined`). -/
structure Query where
  pdfUrl : Option String
  min : Option String
  max : Option String
deriving DecidableEq

/-- An HTTP response: status code and JSON object body, the body as an
association list of string fields. -/
structure Response where
  status : Nat
  body : List (String × String)
deriving DecidableEq

/-! ### JavaScript `parseInt` and the `||` defaulting idiom -/

/-- Characters JS `parseInt` skips as leading whitespace. -/
def jsWhitespace (c : Char) : Bool :=
  c == ' ' || c == '\t' || c == '\n' || c == '\r' || c == '\x0b' || c == '\x0c'

/-- Numeric value of a character as a base-16 digit, `none` if not a hex
digit.  (Decimal digits are the `v < 10` cases.) -/
def hexDigitVal (c : Char) : Option Nat :=
  if '0' ≤ c ∧ c ≤ '9' then some (c.toNat - '0'.toNat)
  else if 'a' ≤ c ∧ c ≤ 'f' then some (c.toNat - 'a'.toNat + 10)
  else if 'A' ≤ c ∧ c ≤ 'F' then some (c.toNat - 'A'.toNat + 10)
  else none

/-- Longest prefix of digits valid in the given base, as digit values. -/
def takeDigits (base : Nat) : List Char → List Nat
  | [] => []
  | c :: cs =>
    match hexDigitVal c with
    | some v => if v < base then v :: takeDigits base cs else []
    | none => []

/-- Value of a digit-value list read most-significant first. -/
def digitsToNat (base : Nat) (ds : List Nat) : Nat :=
  ds.foldl (fun a d => a * base + d) 0

/-- JS `parseInt(s)` on a character list: skip leading whitespace, optional
sign, optional `0x`/`0X` hex prefix, then the longest digit prefix; `none`
models `NaN` (no digits). -/
def parseIntCore (cs0 : List Char) : Option Int :=
  let cs1 := cs0.dropWhile jsWhitespace
  let sc : Int × List Char :=
    match cs1 with
    | '-' :: rest => (-1, rest)
    | '+' :: rest => (1, rest)
    | _ => (1, cs1)
  let bc : Nat × List Char :=
    match sc.2 with
    | '0' :: 'x' :: rest => (16, rest)
    | '0' :: 'X' :: rest => (16, rest)
    | _ => (10, sc.2)
  let ds := takeDigits bc.1 bc.2
  if ds.isEmpty then none else some (sc.1 * (digitsToNat bc.1 ds : Int))

/-- `parseInt(req.query.x)` where the parameter may be absent:
`parseInt(undefined)` is `NaN`, modelled as `none`. -/
def parseIntJS : Option String → Option Int
  | none => none
  | some s => parseIntCore s.data

/-- The JS idiom `parseInt(x) || d`: `NaN` and `0` are falsy, so both fall
back to the default `d`. -/
def orDefault (v : Option Int) (d : Int) : Int :=
  match v with
  | none => d
  | some n => if n = 0 then d else n

/-- Characters JS `String.prototype.trim` strips: WhiteSpace and
LineTerminator code points. -/
def jsTrimWhitespace (c : Char) : Bool :=
  jsWhitespace c || c == '\u00A0' || c == '\uFEFF' || c == '\u2028' || c == '\u2029'

/-- Strip leading and trailing characters satisfying `ws`. -/
def trimChars (ws : Char → Bool) (cs : List Char) : List Char :=
  (((cs.dropWhile ws).reverse.dropWhile ws)).reverse

/-- JS `s.trim()`: strip leading and trailing whitespace. -/
def jsTrim (s : String) : String :=
  ⟨trimChars jsTrimWhitespace s.data⟩

/-! ### Response constructors (from `server.js`) -/

/-- `res.status(400).json({ error: "Missing pdfUrl parameter" })`. -/
def missingUrlResponse : Response :=
  ⟨400, [("error", "Missing pdfUrl parameter")]⟩

/-- The catch block: `res.status(500).json({ error: "Failed to process
PDF", message: error.message })`. -/
def errorResponse (msg : String) : Response :=
  ⟨500, [("error", "Failed to process PDF"), ("message", msg)]⟩

/-- `res.json({ text: t })` (status 200). -/
def okResponse (t : String) : Response :=
  ⟨200, [("text", t)]⟩

/-! ### Text extraction -/

/-- The `options.pagerender` hook of `/api/pdf-text` (`server.js` lines
71–78): a page numbered below `min` contributes `""`; otherwise the page's
fragments are joined by a single space (`items.map(i => i.str).join(' ')`). -/
def pagerender (minP : Int) (pageNumber : Nat) (items : List String) : String :=
  if (pageNumber : Int) < minP then "" else String.intercalate " " items

/-- Concatenation of a list of strings with no separator. -/
def concatAll : List String → String
  | [] => ""
  | s :: rest => s ++ concatAll rest

/-- Render each page of a page list, numbering from `n`. -/
def pageTexts (render : Nat → List String → String) : Nat → Doc → List String
  | _, [] => []
  | n, pg :: rest => render n pg :: pageTexts render (n + 1) rest

/-- Modelled from the spec: the `pdf-parse` library is a dependency, not
part of this repository's sources.  Per the spec, parsing proceeds "page by
page, up to maxPage total pages processed", each processed page rendered by
the supplied per-page hook, and the per-page texts concatenated "in page
order" with "no explicit separator". -/
def pdfParseText (doc : Doc) (maxP : Int) (render : Nat → List String → String) : String :=
  concatAll (pageTexts render 1 (doc.take maxP.toNat))

/-- Modelled from the spec: `pdf-parse`'s default page renderer (used by
`/api/pdf-text-all`, which passes no options) is not part of this
repository's sources.  Per the spec's ExtractionResult, each page's items
are "joined by a single space". -/
def defaultRender (_pageNumber : Nat) (items : List String) : String :=
  String.intercalate " " items

/-- Whole-document extraction text: every page rendered by the default
renderer, concatenated in page order. -/
def pdfAllText (doc : Doc) : String :=
  concatAll (pageTexts defaultRender 1 doc)

/-! ### Route handlers (from `server.js`) -/

/-- The `/api/pdf-text` handler (`server.js` lines 38–97) as a pure
function of the query and the fetch outcome.  Mirrors the source order:
missing/empty `pdfUrl` check, fetch, `parseInt(...) || default` for `max`
then `min`, `max` validation, `min` validation, then parse and respond. -/
def pdfTextHandler (q : Query) (fetchRes : Except String (Except String Doc)) : Response :=
  match q.pdfUrl with
  | none => missingUrlResponse
  | some url =>
    if url = "" then missingUrlResponse
    else
      match fetchRes with
      | Except.error e => errorResponse e
      | Except.ok file =>
        let maxV : Int := orDefault (parseIntJS q.max) 100
        let minV : Int := orDefault (parseIntJS q.min) 1
        if maxV < 1 then errorResponse "Invalid max page value"
        else if minV < 1 ∨ minV > maxV then errorResponse "Invalid min page value"
        else
          match file with
          | Except.error e => errorResponse e
          | Except.ok doc => okResponse (jsTrim (pdfParseText doc maxV (pagerender minV)))

/-- The `/api/pdf-text-all` handler (`server.js` lines 100–133): same
fetch and error shape, no range parameters, default parse of the whole
document. -/
def pdfTextAllHandler (q : Query) (fetchRes : Except String (Except String Doc)) : Response :=
  match q.pdfUrl with
  | none => missingUrlResponse
  | some url =>
    if url = "" then missingUrlResponse
    else
      match fetchRes with
      | Except.error e => errorResponse e
      | Except.ok file =>
        match file with
        | Except.error e => errorResponse e
        | Except.ok doc => okResponse (jsTrim (pdfAllText doc))

/-- The `/api/health` handler (`server.js` lines 137–139): ignores the
request entirely. -/
def healthHandler (_q : Query) : Response :=
  ⟨200, [("status", "ok")]⟩

/-! ### Claim-side descriptions of the extracted text -/

/-- The per-page texts as the spec describes them, numbering from `n`: a
page numbered below `minP` contributes the empty string, a page numbered
in `[minP, maxP]` contributes its fragments joined by a single space, and
a page numbered above `maxP` contributes nothing. -/
def claimPageTexts (minP maxP : Int) : Nat → Doc → List String
  | _, [] => []
  | n, pg :: rest =>
    (if (n : Int) < minP then ""
     else if (n : Int) ≤ maxP then String.intercalate " " pg
     else "") :: claimPageTexts minP maxP (n + 1) rest

/-- The ranged extraction text as the claim describes it: the per-page
contributions concatenated in page order. -/
def claimRangedText (doc : Doc) (minP maxP : Int) : String :=
  concatAll (claimPageTexts minP maxP 1 doc)

/-- The text of the single page numbered `k` (1-based); `""` when the
document has fewer than `k` pages. -/
def singlePageText (doc : Doc) (k : Int) : String :=
  String.intercalate " " (doc.getD (k.toNat - 1) [])

/-! ### Helper lemmas -/

lemma concat_cons (s : String) (l : List String) :
    concatAll (s :: l) = s ++ concatAll l := rfl

lemma empty_append_str (s : String) : "" ++ s = s := rfl

lemma claimPageTexts_concat_of_gt (minP maxP : Int) (hle : minP ≤ maxP) :
    ∀ (doc : Doc) (n : Nat), maxP < (n : Int) →
      concatAll (claimPageTexts minP maxP n doc) = "" := by
  intro doc
  induction doc with
  | nil => intro n _; rfl
  | cons pg rest ih =>
    intro n hgt
    have h1 : ¬ ((n : Int) < minP) := by omega
    have h2 : ¬ ((n : Int) ≤ maxP) := by omega
    simp only [claimPageTexts, if_neg h1, if_neg h2, concat_cons, empty_append_str]
    exact ih (n + 1) (by push_cast; omega)

/-- Core equivalence: processing a budget of `b` pages from page number
`n` with the source's `pagerender` hook produces the claim's description
of pages `n, n+1, …`, provided the budget reaches exactly through page
`maxP`. -/
lemma pageTexts_take_eq_claim (minP maxP : Int) (hle : minP ≤ maxP) :
    ∀ (doc : Doc) (n b : Nat), (n : Int) + b = maxP + 1 →
      concatAll (pageTexts (pagerender minP) n (doc.take b)) =
        concatAll (claimPageTexts minP maxP n doc) := by
  intro doc
  induction doc with
  | nil => intro n b _; simp [pageTexts, claimPageTexts]
  | cons pg rest ih =>
    intro n b hb
    match b with
    | 0 =>
      have hgt : maxP < (n : Int) := by push_cast at hb; omega
      simp only [List.take_zero, pageTexts, claimPageTexts_concat_of_gt minP maxP hle _ _ hgt]
      rfl
    | Nat.succ b1 =>
      have hle2 : (n : Int) ≤ maxP := by push_cast at hb; omega
      simp only [List.take_succ_cons, pageTexts, claimPageTexts, concat_cons]
      rw [ih (n + 1) b1 (by push_cast at hb ⊢; omega)]
      by_cases hlt : (n : Int) < minP
      · simp [pagerender, hlt]
      · simp [pagerender, hlt, hle2]

lemma pdfParseText_eq_claim (doc : Doc) (minP maxP : Int)
    (h1 : 1 ≤ minP) (hle : minP ≤ maxP) :
    pdfParseText doc maxP (pagerender minP) = claimRangedText doc minP maxP := by
  unfold pdfParseText claimRangedText
  exact pageTexts_take_eq_claim minP maxP hle doc 1 maxP.toNat (by omega)

lemma claimPageTexts_single (k : Int) :
    ∀ (doc : Doc) (n : Nat), 1 ≤ n → (n : Int) ≤ k →
      concatAll (claimPageTexts k k n doc) =
        String.intercalate " " (doc.getD (k.toNat - n) []) := by
  intro doc
  induction doc with
  | nil => intro n _ _; rfl
  | cons pg rest ih =>
    intro n hn hk
    by_cases heq : (n : Int) = k
    · have h1 : ¬ ((n : Int) < k) := by omega
      have hgt : k < ((n + 1 : Nat) : Int) := by push_cast; omega
      have hidx : k.toNat - n = 0 := by omega
      simp only [claimPageTexts, if_neg h1, if_pos (le_of_eq heq), concat_cons,
        claimPageTexts_concat_of_gt k k le_rfl rest (n + 1) hgt, hidx, List.getD]
      simp
    · have hlt : (n : Int) < k := lt_of_le_of_ne hk heq
      have h1 : (n : Int) < k := hlt
      have hidx : k.toNat - n = (k.toNat - (n + 1)) + 1 := by omega
      simp only [claimPageTexts, if_pos h1, concat_cons, empty_append_str]
      rw [ih (n + 1) (by omega) (by push_cast; omega), hidx]
      simp [List.getD]

lemma claimRangedText_single (doc : Doc) (k : Int) (hk : 1 ≤ k) :
    claimRangedText doc k k = singlePageText doc k := by
  unfold claimRangedText singlePageText
  exact claimPageTexts_single k doc 1 le_rfl (by exact_mod_cast hk)

lemma pageTexts_min_one_eq_default :
    ∀ (doc : Doc) (n : Nat), 1 ≤ n →
      pageTexts (pagerender 1) n doc = pageTexts defaultRender n doc := by
  intro doc
  induction doc with
  | nil => intro n _; rfl
  | cons pg rest ih =>
    intro n hn
    have h1 : ¬ ((n : Int) < 1) := by omega
    simp only [pageTexts, pagerender, defaultRender, if_neg h1]
    rw [ih (n + 1) (by omega)]

/-- Reduction of the `/api/pdf-text` handler once the URL is present and
the fetch has succeeded. -/
lemma pdfTextHandler_fetched (q : Query) (u : String) (file : Except String Doc)
    (hu : q.pdfUrl = some u) (hu2 : u ≠ "") :
    pdfTextHandler q (Except.ok file) =
      (if orDefault (parseIntJS q.max) 100 < 1 then errorResponse "Invalid max page value"
       else if orDefault (parseIntJS q.min) 1 < 1 ∨
           orDefault (parseIntJS q.min) 1 > orDefault (parseIntJS q.max) 100 then
         errorResponse "Invalid min page value"
       else
         match file with
         | Except.error e => errorResponse e
         | Except.ok doc =>
           okResponse (jsTrim (pdfParseText doc (orDefault (parseIntJS q.max) 100)
             (pagerender (orDefault (parseIntJS q.min) 1))))) := by
  simp only [pdfTextHandler, hu, if_neg hu2]

lemma orDefault_of_falsy (v : Option Int) (d : Int) (h : v = none ∨ v = some 0) :
    orDefault v d = d := by
  rcases h with h | h <;> simp [h, orDefault]

lemma orDefault_lt_one_iff (v : Option Int) (d : Int) (hd : 1 ≤ d) :
    orDefault v d < 1 ↔ ∃ n, v = some n ∧ n < 0 := by
  cases v with
  | none => simp [orDefault]; omega
  | some n =>
    by_cases hn : n = 0
    · simp [orDefault, hn]; omega
    · simp [orDefault, hn]; omega

/-! ### The claims -/

/-- Claim C1: for a request to `/api/pdf-text` whose `min` and `max`
parse to positive integers with `min ≤ max` and whose fetched document
parses, the returned text is: pages below `min` contribute the empty
string, pages in `[min, max]` contribute their fragments in structural
order joined by a single space, all concatenated in page order, trimmed. -/
theorem C1_ranged_extraction_correct (q : Query) (u : String) (doc : Doc) (m M : Int)
    (hu : q.pdfUrl = some u) (hune : u ≠ "")
    (hm : parseIntJS q.min = some m) (hM : parseIntJS q.max = some M)
    (hm1 : 1 ≤ m) (hM1 : 1 ≤ M) (hmM : m ≤ M) :
    pdfTextHandler q (Except.ok (Except.ok doc)) =
      okResponse (jsTrim (claimRangedText doc m M)) := by
  rw [pdfTextHandler_fetched q u (Except.ok doc) hu hune]
  have hmz : m ≠ 0 := by omega
  have hMz : M ≠ 0 := by omega
  have hMv : orDefault (parseIntJS q.max) 100 = M := by rw [hM]; simp [orDefault, hMz]
  have hmv : orDefault (parseIntJS q.min) 1 = m := by rw [hm]; simp [orDefault, hmz]
  rw [hMv, hmv, if_neg (by omega), if_neg (by omega)]
  exact congrArg (fun t => okResponse (jsTrim t)) (pdfParseText_eq_claim doc m M hm1 hmM)

theorem C1_witness :
    pdfTextHandler ⟨some "http://x/doc.pdf", some "2", some "3"⟩
        (Except.ok (Except.ok [["p1"], ["p2a", "p2b"], ["p3"], ["p4"]])) =
      okResponse (jsTrim (claimRangedText [["p1"], ["p2a", "p2b"], ["p3"], ["p4"]] 2 3)) :=
  C1_ranged_extraction_correct ⟨some "http://x/doc.pdf", some "2", some "3"⟩
    "http://x/doc.pdf" [["p1"], ["p2a", "p2b"], ["p3"], ["p4"]] 2 3
    rfl (by decide) (by decide) (by decide) (by decide) (by decide) (by decide)

/-- Claim C2: a request missing `pdfUrl` gets HTTP 400 with an error body
on both extraction routes, whatever the other parameters and whatever the
fetch outcome would have been (no fetch or parse is consulted). -/
theorem C2_missing_pdfUrl (q : Query) (fr : Except String (Except String Doc))
    (hu : q.pdfUrl = none) :
    pdfTextHandler q fr = ⟨400, [("error", "Missing pdfUrl parameter")]⟩ ∧
      pdfTextAllHandler q fr = ⟨400, [("error", "Missing pdfUrl parameter")]⟩ := by
  constructor
  · simp [pdfTextHandler, hu, missingUrlResponse]
  · simp [pdfTextAllHandler, hu, missingUrlResponse]

theorem C2_witness :
    pdfTextHandler ⟨none, some "1", some "5"⟩ (Except.error "network down") =
        ⟨400, [("error", "Missing pdfUrl parameter")]⟩ ∧
      pdfTextAllHandler ⟨none, some "1", some "5"⟩ (Except.error "network down") =
        ⟨400, [("error", "Missing pdfUrl parameter")]⟩ :=
  C2_missing_pdfUrl ⟨none, some "1", some "5"⟩ (Except.error "network down") rfl

/-- Claim C3, counterexample: a request with `min=3`, `max=2` (invalid
range) is answered with HTTP 500, not 400 as the claim states. -/
theorem C3_counterexample :
    pdfTextHandler ⟨some "http://example.com/a.pdf", some "3", some "2"⟩
        (Except.ok (Except.ok [])) =
      ⟨500, [("error", "Failed to process PDF"), ("message", "Invalid min page value")]⟩ ∧
    (pdfTextHandler ⟨some "http://example.com/a.pdf", some "3", some "2"⟩
        (Except.ok (Except.ok []))).status ≠ 400 := by
  constructor <;> decide

/-- Claim C3 as amended: a missing `pdfUrl` is reported as HTTP 400 with
a short error string, but invalid `min`/`max` page values are reported as
HTTP 500 with the error label and the validation message. -/
theorem C3_amended_error_statuses (q : Query) (u : String) (file : Except String Doc) :
    (q.pdfUrl = none →
      pdfTextHandler q (Except.ok file) = ⟨400, [("error", "Missing pdfUrl parameter")]⟩) ∧
    (q.pdfUrl = some u → u ≠ "" →
      (orDefault (parseIntJS q.max) 100 < 1 →
        pdfTextHandler q (Except.ok file) =
          ⟨500, [("error", "Failed to process PDF"), ("message", "Invalid max page value")]⟩) ∧
      (¬ orDefault (parseIntJS q.max) 100 < 1 →
        (orDefault (parseIntJS q.min) 1 < 1 ∨
          orDefault (parseIntJS q.min) 1 > orDefault (parseIntJS q.max) 100) →
        pdfTextHandler q (Except.ok file) =
          ⟨500, [("error", "Failed to process PDF"), ("message", "Invalid min page value")]⟩)) := by
  constructor
  · intro hu; simp [pdfTextHandler, hu, missingUrlResponse]
  · intro hu hune
    rw [pdfTextHandler_fetched q u file hu hune]
    constructor
    · intro h; rw [if_pos h]; rfl
    · intro h hmin; rw [if_neg h, if_pos hmin]; rfl

theorem C3_witness :
    pdfTextHandler ⟨some "http://y/a.pdf", some "4", some "3"⟩ (Except.ok (Except.ok [["t"]])) =
      ⟨500, [("error", "Failed to process PDF"), ("message", "Invalid min page value")]⟩ :=
  ((C3_amended_error_statuses ⟨some "http://y/a.pdf", some "4", some "3"⟩
      "http://y/a.pdf" (Except.ok [["t"]])).2 rfl (by decide)).2 (by decide) (by decide)

/-- Claim C4, counterexample: with `min=5`, `max=-2` the parsed min
exceeds the parsed max, yet the message is "Invalid max page value"
(the max check fires first), not "Invalid min page value". -/
theorem C4_counterexample :
    parseIntJS (some "5") = some 5 ∧ parseIntJS (some "-2") = some (-2) ∧ ((5 : Int) > -2) ∧
    pdfTextHandler ⟨some "http://example.com/b.pdf", some "5", some "-2"⟩
        (Except.ok (Except.ok [])) =
      ⟨500, [("error", "Failed to process PDF"), ("message", "Invalid max page value")]⟩ := by
  refine ⟨by decide, by decide, by decide, by decide⟩

/-- Claim C4 as amended: when the effective max value passes its own
validation (`max ≥ 1`) and the effective min exceeds it, the response is
HTTP 500 with message "Invalid min page value". -/
theorem C4_amended_min_gt_max (q : Query) (u : String) (file : Except String Doc)
    (hu : q.pdfUrl = some u) (hune : u ≠ "")
    (hM : 1 ≤ orDefault (parseIntJS q.max) 100)
    (hgt : orDefault (parseIntJS q.min) 1 > orDefault (parseIntJS q.max) 100) :
    pdfTextHandler q (Except.ok file) =
      ⟨500, [("error", "Failed to process PDF"), ("message", "Invalid min page value")]⟩ := by
  rw [pdfTextHandler_fetched q u file hu hune, if_neg (by omega), if_pos (Or.inr hgt)]
  rfl

theorem C4_witness :
    pdfTextHandler ⟨some "http://x/d.pdf", some "5", some "2"⟩ (Except.ok (Except.ok [])) =
      ⟨500, [("error", "Failed to process PDF"), ("message", "Invalid min page value")]⟩ :=
  C4_amended_min_gt_max ⟨some "http://x/d.pdf", some "5", some "2"⟩ "http://x/d.pdf"
    (Except.ok []) rfl (by decide) (by decide) (by decide)

/-- Claim C5, counterexample: a non-numeric `max` does not produce the
claimed 500 "Invalid max page value"; `parseInt` yields `NaN`, the `||`
default replaces it by 100, and extraction succeeds with HTTP 200. -/
theorem C5_counterexample :
    parseIntJS (some "abc") = none ∧
    pdfTextHandler ⟨some "http://example.com/c.pdf", some "1", some "abc"⟩
        (Except.ok (Except.ok [["hello", "world"]])) =
      ⟨200, [("text", "hello world")]⟩ := by
  refine ⟨by decide, by decide⟩

/-- Claim C5 as amended: only a `max` that parses to a negative integer
triggers HTTP 500 with message "Invalid max page value"; non-numeric or
zero values are silently replaced by the default 100. -/
theorem C5_amended_negative_max (q : Query) (u : String) (file : Except String Doc) (M : Int)
    (hu : q.pdfUrl = some u) (hune : u ≠ "")
    (hM : parseIntJS q.max = some M) (hneg : M < 0) :
    pdfTextHandler q (Except.ok file) =
      ⟨500, [("error", "Failed to process PDF"), ("message", "Invalid max page value")]⟩ := by
  rw [pdfTextHandler_fetched q u file hu hune]
  have hMz : M ≠ 0 := by omega
  have hMv : orDefault (parseIntJS q.max) 100 = M := by rw [hM]; simp [orDefault, hMz]
  rw [hMv, if_pos (by omega)]
  rfl

theorem C5_witness :
    pdfTextHandler ⟨some "http://x/e.pdf", none, some "-3"⟩ (Except.ok (Except.ok [])) =
      ⟨500, [("error", "Failed to process PDF"), ("message", "Invalid max page value")]⟩ :=
  C5_amended_negative_max ⟨some "http://x/e.pdf", none, some "-3"⟩ "http://x/e.pdf"
    (Except.ok []) (-3) rfl (by decide) (by decide) (by decide)

/-- Claim C6: on an `n`-page document, `/api/pdf-text` with `min=1` and
`max=n` returns the same response as `/api/pdf-text-all` for the same
document. -/
theorem C6_full_range_equals_all (q qall : Query) (u uall : String) (doc : Doc)
    (hu : q.pdfUrl = some u) (hune : u ≠ "")
    (hu2 : qall.pdfUrl = some uall) (hune2 : uall ≠ "")
    (hmin : parseIntJS q.min = some 1)
    (hmax : parseIntJS q.max = some (doc.length : Int))
    (hpos : 1 ≤ doc.length) :
    pdfTextHandler q (Except.ok (Except.ok doc)) =
      pdfTextAllHandler qall (Except.ok (Except.ok doc)) := by
  rw [pdfTextHandler_fetched q u (Except.ok doc) hu hune]
  have hlz : (doc.length : Int) ≠ 0 := by omega
  have hMv : orDefault (parseIntJS q.max) 100 = (doc.length : Int) := by
    rw [hmax]; simp [orDefault, hlz]
  have hmv : orDefault (parseIntJS q.min) 1 = 1 := by rw [hmin]; simp [orDefault]
  rw [hMv, hmv, if_neg (by omega), if_neg (by omega)]
  have hruns : pdfParseText doc (doc.length : Int) (pagerender 1) = pdfAllText doc := by
    unfold pdfParseText pdfAllText
    rw [Int.toNat_natCast, List.take_length]
    exact congrArg concatAll (pageTexts_min_one_eq_default doc 1 le_rfl)
  have hall : pdfTextAllHandler qall (Except.ok (Except.ok doc)) =
      okResponse (jsTrim (pdfAllText doc)) := by
    simp [pdfTextAllHandler, hu2, hune2]
  rw [hall]
  exact congrArg (fun t => okResponse (jsTrim t)) hruns

theorem C6_witness :
    pdfTextHandler ⟨some "http://x/f.pdf", some "1", some "2"⟩
        (Except.ok (Except.ok [["a"], ["b"]])) =
      pdfTextAllHandler ⟨some "http://y/f.pdf", none, none⟩
        (Except.ok (Except.ok [["a"], ["b"]])) :=
  C6_full_range_equals_all ⟨some "http://x/f.pdf", some "1", some "2"⟩
    ⟨some "http://y/f.pdf", none, none⟩ "http://x/f.pdf" "http://y/f.pdf" [["a"], ["b"]]
    rfl (by decide) rfl (by decide) (by decide) (by decide) (by decide)

/-- Claim C7: with `min = max = k ≥ 1` the returned text is the text of
page `k` alone (empty if the document is shorter), trimmed; and the
handler is deterministic in its inputs — the identical request against
the unchanged document yields the identical response. -/
theorem C7_single_page_extraction (q : Query) (u : String) (doc : Doc) (k : Int)
    (hu : q.pdfUrl = some u) (hune : u ≠ "")
    (hmin : parseIntJS q.min = some k) (hmax : parseIntJS q.max = some k) (hk : 1 ≤ k) :
    pdfTextHandler q (Except.ok (Except.ok doc)) = okResponse (jsTrim (singlePageText doc k)) ∧
    pdfTextHandler q (Except.ok (Except.ok doc)) = pdfTextHandler q (Except.ok (Except.ok doc)) := by
  refine ⟨?_, rfl⟩
  rw [pdfTextHandler_fetched q u (Except.ok doc) hu hune]
  have hkz : k ≠ 0 := by omega
  have hMv : orDefault (parseIntJS q.max) 100 = k := by rw [hmax]; simp [orDefault, hkz]
  have hmv : orDefault (parseIntJS q.min) 1 = k := by rw [hmin]; simp [orDefault, hkz]
  rw [hMv, hmv, if_neg (by omega), if_neg (by omega)]
  exact congrArg (fun t => okResponse (jsTrim t))
    (by rw [pdfParseText_eq_claim doc k k hk le_rfl, claimRangedText_single doc k hk])

theorem C7_witness :
    pdfTextHandler ⟨some "http://x/g.pdf", some "2", some "2"⟩
        (Except.ok (Except.ok [["a"], ["b1", "b2"], ["c"]])) =
      okResponse (jsTrim (singlePageText [["a"], ["b1", "b2"], ["c"]] 2)) ∧
    pdfTextHandler ⟨some "http://x/g.pdf", some "2", some "2"⟩
        (Except.ok (Except.ok [["a"], ["b1", "b2"], ["c"]])) =
      pdfTextHandler ⟨some "http://x/g.pdf", some "2", some "2"⟩
        (Except.ok (Except.ok [["a"], ["b1", "b2"], ["c"]])) :=
  C7_single_page_extraction ⟨some "http://x/g.pdf", some "2", some "2"⟩ "http://x/g.pdf"
    [["a"], ["b1", "b2"], ["c"]] 2 rfl (by decide) (by decide) (by decide) (by decide)

/-- Claim C8: `/api/health` answers HTTP 200 with body `{status: "ok"}`
for every request, independent of any other state. -/
theorem C8_health_ok (q : Query) : healthHandler q = ⟨200, [("status", "ok")]⟩ := rfl

/-- Claim C9: a `min`/`max` that is non-numeric or parses to 0 is
silently replaced by its default (1 for `min`, 100 for `max`) and
extraction proceeds; a validation error occurs exactly when the effective
max is below 1, the effective min is below 1, or min exceeds max — and an
effective value is below 1 exactly when the parameter parsed to a
negative integer. -/
theorem C9_silent_defaults (q : Query) (u : String) (doc : Doc)
    (hu : q.pdfUrl = some u) (hune : u ≠ "") :
    ((parseIntJS q.max = none ∨ parseIntJS q.max = some 0) →
      orDefault (parseIntJS q.max) 100 = 100) ∧
    ((parseIntJS q.min = none ∨ parseIntJS q.min = some 0) →
      orDefault (parseIntJS q.min) 1 = 1) ∧
    ((pdfTextHandler q (Except.ok (Except.ok doc))).status = 500 ↔
      (orDefault (parseIntJS q.max) 100 < 1 ∨ orDefault (parseIntJS q.min) 1 < 1 ∨
        orDefault (parseIntJS q.min) 1 > orDefault (parseIntJS q.max) 100)) ∧
    (orDefault (parseIntJS q.max) 100 < 1 ↔ ∃ v, parseIntJS q.max = some v ∧ v < 0) ∧
    (orDefault (parseIntJS q.min) 1 < 1 ↔ ∃ v, parseIntJS q.min = some v ∧ v < 0) := by
  refine ⟨fun h => orDefault_of_falsy _ _ h, fun h => orDefault_of_falsy _ _ h, ?_,
    orDefault_lt_one_iff _ _ (by omega), orDefault_lt_one_iff _ _ (by omega)⟩
  rw [pdfTextHandler_fetched q u (Except.ok doc) hu hune]
  by_cases h1 : orDefault (parseIntJS q.max) 100 < 1
  · rw [if_pos h1]
    simp only [errorResponse]
    constructor
    · intro _; exact Or.inl h1
    · intro _; trivial
  · by_cases h2 : orDefault (parseIntJS q.min) 1 < 1 ∨
        orDefault (parseIntJS q.min) 1 > orDefault (parseIntJS q.max) 100
    · rw [if_neg h1, if_pos h2]
      simp only [errorResponse]
      constructor
      · intro _; exact Or.inr h2
      · intro _; trivial
    · rw [if_neg h1, if_neg h2]
      simp only [okResponse]
      constructor
      · intro h; omega
      · intro h; omega

theorem C9_witness :
    ((parseIntJS (Query.mk (some "u") (some "abc") (some "0")).max = none ∨
        parseIntJS (Query.mk (some "u") (some "abc") (some "0")).max = some 0) →
      orDefault (parseIntJS (Query.mk (some "u") (some "abc") (some "0")).max) 100 = 100) ∧
    ((parseIntJS (Query.mk (some "u") (some "abc") (some "0")).min = none ∨
        parseIntJS (Query.mk (some "u") (some "abc") (some "0")).min = some 0) →
      orDefault (parseIntJS (Query.mk (some "u") (some "abc") (some "0")).min) 1 = 1) ∧
    ((pdfTextHandler (Query.mk (some "u") (some "abc") (some "0"))
        (Except.ok (Except.ok [["a"]]))).status = 500 ↔
      (orDefault (parseIntJS (Query.mk (some "u") (some "abc") (some "0")).max) 100 < 1 ∨
        orDefault (parseIntJS (Query.mk (some "u") (some "abc") (some "0")).min) 1 < 1 ∨
        orDefault (parseIntJS (Query.mk (some "u") (some "abc") (some "0")).min) 1 >
          orDefault (parseIntJS (Query.mk (some "u") (some "abc") (some "0")).max) 100)) ∧
    (orDefault (parseIntJS (Query.mk (some "u") (some "abc") (some "0")).max) 100 < 1 ↔
      ∃ v, parseIntJS (Query.mk (some "u") (some "abc") (some "0")).max = some v ∧ v < 0) ∧
    (orDefault (parseIntJS (Query.mk (some "u") (some "abc") (some "0")).min) 1 < 1 ↔
      ∃ v, parseIntJS (Query.mk (some "u") (some "abc") (some "0")).min = some v ∧ v < 0) :=
  C9_silent_defaults (Query.mk (some "u") (some "abc") (some "0")) "u" [["a"]] rfl (by decide)

/-- Claim C10: the remote fetch precedes `min`/`max` validation — when
the fetch fails on a request whose range is invalid, the 500 response
carries the fetch failure's message, not a validation message. -/
theorem C10_fetch_precedes_validation (q : Query) (u e : String)
    (hu : q.pdfUrl = some u) (hune : u ≠ "")
    (_hbad : orDefault (parseIntJS q.max) 100 < 1 ∨ orDefault (parseIntJS q.min) 1 < 1 ∨
      orDefault (parseIntJS q.min) 1 > orDefault (parseIntJS q.max) 100) :
    pdfTextHandler q (Except.error e) =
      ⟨500, [("error", "Failed to process PDF"), ("message", e)]⟩ := by
  simp [pdfTextHandler, hu, hune, errorResponse]

theorem C10_witness :
    pdfTextHandler ⟨some "http://bad.example/x.pdf", some "5", some "2"⟩
        (Except.error "getaddrinfo ENOTFOUND bad.example") =
      ⟨500, [("error", "Failed to process PDF"),
        ("message", "getaddrinfo ENOTFOUND bad.example")]⟩ :=
  C10_fetch_precedes_validation ⟨some "http://bad.example/x.pdf", some "5", some "2"⟩
    "http://bad.example/x.pdf" "getaddrinfo ENOTFOUND bad.example" rfl (by decide) (by decide)

end PdfServer
